import Mathlib

/-!
Verification development for the interview-coach automation repository
(two scripts: `answer-filler.py` and `scraper.py`).

The Python scripts are shallowly embedded as pure Lean functions.  External
effects are modelled explicitly:

* HTML pages fetched by `requests` + parsed by BeautifulSoup are modelled by
  the `Page` structure below.  An element's `get_text(strip=True)` and
  `get_text("\n", strip=True)` calls concatenate the same whitespace-stripped
  text fragments with different separators, so an element is modelled by the
  two resulting strings (`txtCat` and `txtNl`); the BeautifulSoup guarantee
  that both strings are whitespace-stripped and simultaneously empty is the
  decidable predicate `elementWf`, assumed as a hypothesis where a theorem
  needs it.
* Network calls are modelled by outcome oracles stored in a `World`
  structure: `none` stands for any exception (connection error, timeout,
  non-2xx status raised by `raise_for_status`, malformed JSON), `some v` for
  a successful call returning `v`.  The Python scripts catch every exception
  at each call site and convert it to `None`/`""`, so every embedded
  function is total: no resolver can raise.
* Python truthiness of an optional string (`if ans:`) is `optTruthy`.
-/

namespace InterviewCoach

/-- Python truthiness of an optional string: `None` and `""` are falsy. -/
def optTruthy : Option String → Bool
  | none => false
  | some s => !s.isEmpty

/-! String primitives.  Core's `String.trim`, `String.toLower` and substring
search are byte-position based and do not reduce inside the kernel, so the
embedding uses character-list equivalents: `pyStrip` models Python's
`str.strip()` (and the trimming BeautifulSoup's `strip=True` performs),
`pyLower` models `str.lower()`, `hasSubstr` models `pat in s`, and
`wordCount` models `len(s.split())`. -/

/-- Python `str.strip()`: drop leading and trailing whitespace. -/
def pyStrip (s : String) : String :=
  String.mk (((s.data.dropWhile Char.isWhitespace).reverse.dropWhile
    Char.isWhitespace).reverse)

/-- Python `str.lower()` (ASCII case folding). -/
def pyLower (s : String) : String := String.mk (s.data.map Char.toLower)

/-- Does the character list begin with the given pattern? -/
def charsBeginWith : List Char → List Char → Bool
  | [], _ => true
  | _ :: _, [] => false
  | p :: ps, c :: cs => p == c && charsBeginWith ps cs

/-- Does the character list contain the given pattern as a contiguous run? -/
def charsHaveSub (pat : List Char) : List Char → Bool
  | [] => pat.isEmpty
  | c :: rest => charsBeginWith pat (c :: rest) || charsHaveSub pat rest

/-- Python `pat in s`. -/
def hasSubstr (s pat : String) : Bool := charsHaveSub pat.data s.data

/-- Python `len(s.split())`: the number of maximal whitespace-free runs. -/
def wordCount (s : String) : Nat :=
  (s.data.foldl (fun (acc : Nat × Bool) c =>
    if c.isWhitespace then (acc.1, false)
    else if acc.2 then (acc.1, true) else (acc.1 + 1, true)) (0, false)).1

/-- A parsed HTML element, represented by the outputs of its two
`get_text` calls: `txtCat` is `get_text(strip=True)` and `txtNl` is
`get_text("\n", strip=True)`. -/
structure Element where
  txtCat : String
  txtNl : String
deriving DecidableEq, Repr

/-- A fetched answer page, as seen through the selectors the scripts use:
`select_one("div.answer-text")`, `select_one("div.content")` together with its
`find_all(["p","pre"])` paragraph list, and `find("article")`. -/
structure Page where
  answerText : Option Element
  contentParas : Option (List Element)
  article : Option Element
deriving DecidableEq, Repr

/-- The joined text of the GeeksforGeeks content rule in `answer-filler.py`:
`"\n\n".join(p.get_text(strip=True) for p in paras if p.get_text(strip=True))`. -/
def fillerParasText (paras : List Element) : String :=
  String.intercalate "\n\n" ((paras.map Element.txtCat).filter (fun s => !s.isEmpty))

/-- The joined text of the GeeksforGeeks content rule in `scraper.py`:
`"\n\n".join(p.get_text(strip=True) for p in paras)` (no emptiness filter). -/
def scraperParasText (paras : List Element) : String :=
  String.intercalate "\n\n" (paras.map Element.txtCat)

/-- BeautifulSoup guarantee for one element: both text renderings are
whitespace-stripped, and one is empty exactly when the other is. -/
def elementWf (el : Element) : Bool :=
  (pyStrip el.txtCat == el.txtCat) && (pyStrip el.txtNl == el.txtNl) &&
    (el.txtCat.isEmpty == el.txtNl.isEmpty)

/-- `elementWf` lifted to an optional element. -/
def optElementWf : Option Element → Bool
  | some el => elementWf el
  | none => true

/-- BeautifulSoup guarantee for a whole page: every element text is
whitespace-stripped (including the computed paragraph join, which is a
`"\n\n"`-join of stripped fragments). -/
def pageWf (p : Page) : Bool :=
  optElementWf p.answerText && optElementWf p.article &&
    (match p.contentParas with
     | some paras => pyStrip (fillerParasText paras) == fillerParasText paras
     | none => true)

namespace AnswerFiller

/-- Rule 1 of `scrape_source` in `answer-filler.py` (InterviewBit):
`el = s.select_one("div.answer-text"); if el and el.get_text(strip=True):
return el.get_text("\n", strip=True).strip()`. -/
def rule1 (p : Page) : Option String :=
  match p.answerText with
  | some el => if el.txtCat.isEmpty then none else some (pyStrip el.txtNl)
  | none => none

/-- Rule 2 of `scrape_source` in `answer-filler.py` (GeeksforGeeks):
join the non-empty paragraph texts; `if text: return text.strip()`. -/
def rule2 (p : Page) : Option String :=
  match p.contentParas with
  | some paras =>
    if (fillerParasText paras).isEmpty then none else some (pyStrip (fillerParasText paras))
  | none => none

/-- Rule 3 of `scrape_source` in `answer-filler.py` (generic article):
`if art and art.get_text(strip=True): return art.get_text("\n", strip=True).strip()`. -/
def rule3 (p : Page) : Option String :=
  match p.article with
  | some el => if el.txtCat.isEmpty then none else some (pyStrip el.txtNl)
  | none => none

/-- The rule cascade of `scrape_source` in `answer-filler.py` applied to a
fetched page: each rule returns as soon as its guard fires, otherwise the next
rule is tried; `None` if no rule fires. -/
def scrape_rules (p : Page) : Option String :=
  match rule1 p with
  | some t => some t
  | none =>
    match rule2 p with
    | some t => some t
    | none => rule3 p

end AnswerFiller

namespace Scraper

/-- Rule 1 of `extract_answer` in `scraper.py` (InterviewBit):
`if ans and ans.get_text(strip=True): return ans.get_text("\n", strip=True)`
(no final `.strip()`). -/
def rule1 (p : Page) : Option String :=
  match p.answerText with
  | some el => if el.txtCat.isEmpty then none else some el.txtNl
  | none => none

/-- Rule 2 of `extract_answer` in `scraper.py` (GeeksforGeeks):
`if cont: paras = cont.find_all(['p','pre']); if paras: return "\n\n".join(...)`.
The guard checks only that the paragraph list is non-empty, never the text. -/
def rule2 (p : Page) : Option String :=
  match p.contentParas with
  | some paras => if paras.isEmpty then none else some (scraperParasText paras)
  | none => none

/-- Rule 3 of `extract_answer` in `scraper.py` (generic article):
`if art: return art.get_text("\n", strip=True)` — fires on element presence
alone, never checking the text. -/
def rule3 (p : Page) : Option String :=
  match p.article with
  | some el => some el.txtNl
  | none => none

/-- The page-scrape rule cascade of `extract_answer` in `scraper.py`. -/
def scrape_rules (p : Page) : Option String :=
  match rule1 p with
  | some t => some t
  | none =>
    match rule2 p with
    | some t => some t
    | none => rule3 p

end Scraper

/-- Follows the spec's words (§4.2): return the first rule's output whose
extracted text is non-empty after trimming whitespace, stop evaluating further
rules, and return empty if no rule yields such text. -/
def firstNonEmptyTrimmed : List (Option String) → Option String
  | [] => none
  | none :: rest => firstNonEmptyTrimmed rest
  | some t :: rest => if (pyStrip t).isEmpty then firstNonEmptyTrimmed rest else some t

/-- The three rule outputs of `answer-filler.py`'s `scrape_source`, in source
order, ignoring the guards (the output a rule would return if it fired). -/
def pageRuleOutputsFiller (p : Page) : List (Option String) :=
  [ p.answerText.map (fun el => pyStrip el.txtNl),
    p.contentParas.map (fun ps => pyStrip (fillerParasText ps)),
    p.article.map (fun el => pyStrip el.txtNl) ]

/-- The three rule outputs of `scraper.py`'s `extract_answer` page rules, in
source order, ignoring the guards. -/
def pageRuleOutputsScraper (p : Page) : List (Option String) :=
  [ p.answerText.map Element.txtNl,
    p.contentParas.map scraperParasText,
    p.article.map Element.txtNl ]

/-! ### The fetcher -/

/-- Outcome of one outbound HTTP attempt: a 2xx body, a network-class error
(connection error, DNS failure, timeout), or an HTTP status that
`raise_for_status` turns into an exception (4xx / 5xx). -/
inductive FetchOutcome
  | ok (body : String)
  | netErr
  | httpStatus (code : Nat)
deriving DecidableEq, Repr

/-- `safe_request` from both scripts (`scraper.py` lines 37-50,
`answer-filler.py` lines 35-46): perform one GET plus `raise_for_status`
inside a single `try`, return the response or `None`.  The oracle `attempt`
gives the outcome of the n-th attempt the function would make; the second
component of the result is the number of attempts actually made. -/
def safe_request (attempt : Nat → FetchOutcome) : Option String × Nat :=
  match attempt 0 with
  | .ok b => (some b, 1)
  | _ => (none, 1)

/-- Modelled from the spec (§4.1): the claimed fetcher retries
transient/network-class failures (network error, DNS failure, timeout, 5xx,
rate-limit) up to a cap of 3 attempts, while other 4xx client errors fail
immediately.  Backoff delays (base 2s, cap 10s) have no observable effect on
the result and are not modelled. -/
def retryable : FetchOutcome → Bool
  | .netErr => true
  | .httpStatus c => decide (500 ≤ c) || c == 429
  | .ok _ => false

/-- Modelled from the spec (§4.1): fetch with up to `left` remaining attempts,
`i` attempts already made. -/
def spec_fetchGo (attempt : Nat → FetchOutcome) : Nat → Nat → Option String × Nat
  | i, 0 => (none, i)
  | i, left + 1 =>
    match attempt i with
    | .ok b => (some b, i + 1)
    | out => if retryable out && left > 0 then spec_fetchGo attempt (i + 1) left
             else (none, i + 1)

/-- Modelled from the spec (§4.1): the claimed fetcher with its fixed attempt
cap of 3. -/
def spec_fetch (attempt : Nat → FetchOutcome) : Option String × Nat :=
  spec_fetchGo attempt 0 3

/-! ### Resolvers and the resolution chains -/

/-- Identity of a resolver, used to trace which resolvers a chain invoked
(i.e. performed external work for). -/
inductive Resolver
  | pageScrape
  | googleAPI
  | bingAPI
  | openAI
  | googleSnippet
deriving DecidableEq, Repr

namespace AnswerFiller

/-- The external environment of one `answer-filler.py` run: which credentials
are configured (`GOOGLE_API_KEY`/`GOOGLE_CX`/`BING_API_KEY`/`OPENAI_API_KEY`)
and, for each external service, an oracle giving the outcome of a call.
`none` models any exception (the scripts catch every exception per call site);
`some v` models a successful call. -/
structure World where
  gKey : Bool
  gCx : Bool
  bKey : Bool
  oKey : Bool
  fetchPage : String → Option Page
  googleOutcome : String → Option String
  bingOutcome : String → Option String
  openaiOutcome : String → Option String

/-- `scrape_source` (`answer-filler.py` lines 49-71): `if not link: return
None`; fetch the link; on failure `None`; otherwise run the rule cascade. -/
def scrape_source (w : World) (link : Option String) : Option String :=
  if optTruthy link then
    match w.fetchPage (link.getD "") with
    | some p => scrape_rules p
    | none => none
  else none

/-- `google_search` (`answer-filler.py` lines 74-86): skipped (returns `None`,
no call) unless both `GOOGLE_API_KEY` and `GOOGLE_CX` are set; otherwise one
API call whose first item's snippet is stripped, any exception giving `None`.
The boolean records whether the external call was made. -/
def google_search (w : World) (q : String) : Option String × Bool :=
  if w.gKey && w.gCx then ((w.googleOutcome q).map pyStrip, true)
  else (none, false)

/-- `bing_search` (`answer-filler.py` lines 89-103): skipped unless
`BING_API_KEY` is set; otherwise one API call; the optional snippet field is
returned stripped if truthy (`snippet.strip() if snippet else None`). -/
def bing_search (w : World) (q : String) : Option String × Bool :=
  if w.bKey then
    ((w.bingOutcome q).bind (fun s => if s.isEmpty then none else some (pyStrip s)), true)
  else (none, false)

/-- `openai_answer` (`answer-filler.py` lines 106-122): `if not
OPENAI_API_KEY: return ""`; otherwise one completion call returning the
stripped content, `""` on any exception. -/
def openai_answer (w : World) (q : String) : String × Bool :=
  if w.oKey then (((w.openaiOutcome q).map pyStrip).getD "", true)
  else ("", false)

/-- Stage 4 of `extract_answer`: the OpenAI fallback, then `return ""`. -/
def step4 (w : World) (q : String) (t : List Resolver) : String × List Resolver :=
  let o := openai_answer w q
  let t4 := t ++ (if o.2 then [Resolver.openAI] else [])
  if !o.1.isEmpty then (o.1, t4) else ("", t4)

/-- Stage 3 of `extract_answer`: Bing, falling through to OpenAI. -/
def step3 (w : World) (q : String) (t : List Resolver) : String × List Resolver :=
  let b := bing_search w q
  let t3 := t ++ (if b.2 then [Resolver.bingAPI] else [])
  if optTruthy b.1 then (b.1.getD "", t3) else step4 w q t3

/-- Stage 2 of `extract_answer`: the Google Custom Search API, falling
through to Bing. -/
def step2 (w : World) (q : String) (t : List Resolver) : String × List Resolver :=
  let g := google_search w q
  let t2 := t ++ (if g.2 then [Resolver.googleAPI] else [])
  if optTruthy g.1 then (g.1.getD "", t2) else step3 w q t2

/-- `extract_answer` (`answer-filler.py` lines 125-151): the master resolution
chain — source-page scrape, Google Custom Search API, Bing API, OpenAI, in
that order, returning the first truthy candidate, else `""`.  The trace lists
the resolvers that performed external work, in invocation order (the page
scrape fetches only when a truthy link is present). -/
def extract_answer (w : World) (link : Option String) (q : String) :
    String × List Resolver :=
  let s := scrape_source w link
  let t1 := if optTruthy link then [Resolver.pageScrape] else []
  if optTruthy s then (s.getD "", t1) else step2 w q t1

/-- The four candidates the chain inspects, in priority order (the OpenAI
stage always yields a string, possibly empty). -/
def chainCandidates (w : World) (link : Option String) (q : String) :
    List (Option String) :=
  [ scrape_source w link, (google_search w q).1, (bing_search w q).1,
    some (openai_answer w q).1 ]

/-- First truthy candidate of a list, else `""` — the acceptance rule
`extract_answer` actually applies. -/
def firstTruthy : List (Option String) → String
  | [] => ""
  | o :: rest => if optTruthy o then o.getD "" else firstTruthy rest

/-- `fill_answers`' per-row loop (`answer-filler.py` lines 168-187): rows are
enumerated from sheet index 2; a row whose answer cell is truthy after
stripping is skipped; otherwise the chain resolves, and only a non-empty
answer leads to an `update_cell` write.  The result is the list of attempted
writes `(rowIndex, answer)`. -/
structure Row where
  question : String
  answer : String
  link : Option String
deriving DecidableEq, Repr

/-- The loop body of `fill_answers`, processing rows from index `i`. -/
def fill_answersGo (w : World) : Nat → List Row → List (Nat × String)
  | _, [] => []
  | i, r :: rest =>
    if !(pyStrip r.answer).isEmpty then fill_answersGo w (i + 1) rest
    else
      let ans := (extract_answer w r.link r.question).1
      if ans.isEmpty then fill_answersGo w (i + 1) rest
      else (i, ans) :: fill_answersGo w (i + 1) rest

/-- `fill_answers` (`answer-filler.py` lines 154-187), starting at sheet row 2. -/
def fill_answers (w : World) (rows : List Row) : List (Nat × String) :=
  fill_answersGo w 2 rows

end AnswerFiller

/-! ### Spec-side acceptance policy (claimed, not implemented) -/

/-- Case-insensitive substring test. -/
def hasSubstrCI (s pat : String) : Bool := hasSubstr (pyLower s) (pyLower pat)

/-- Modelled from the spec (§4.5 acceptance policy, not present anywhere in
the code): accept a candidate only if it has at least 15 words, contains
neither of the case-insensitive markers for apology/uncertainty, and is
non-empty after trimming. -/
def acceptPolicy (s : String) : Bool :=
  decide (15 ≤ wordCount s) && !(hasSubstrCI s "Sorry") &&
    !(hasSubstrCI s "don\x27t know") && !(pyStrip s).isEmpty

namespace Scraper

/-- One node matched by a Google-results snippet selector: its rendered text
(`get_text(" ", strip=True)`) and whether the node sits inside a flagged
panel-type container (knowledge panel / people-also-ask) — a property of the
real markup that `search_google` never inspects. -/
structure SnippetNode where
  text : String
  fromPanel : Bool
deriving DecidableEq, Repr

/-- A fetched Google results page, as seen through the three snippet
selectors tried by `search_google` (`div.VwiC3b`, `div.IsZvec`,
`span.aCOpRe`) plus the whole-page text used for the diagnostic preview. -/
structure SearchPage where
  vwiC3b : Option SnippetNode
  isZvec : Option SnippetNode
  aCOpRe : Option SnippetNode
  fullText : String
deriving DecidableEq, Repr

/-- The selector results in the order `search_google` tries them. -/
def selectorNodes (pg : SearchPage) : List (Option SnippetNode) :=
  [pg.vwiC3b, pg.isZvec, pg.aCOpRe]

/-- The per-snippet filter `search_google` applies:
`if text and not any(marker in text for marker in ("Ad ", "Sponsored"))`. -/
def snippetOk (t : String) : Bool :=
  !t.isEmpty && !(hasSubstr t "Ad ") && !(hasSubstr t "Sponsored")

/-- The selector loop of `search_google`: a missing node or a rejected text
falls through to the next selector. -/
def searchLoop : List (Option SnippetNode) → Option String
  | [] => none
  | none :: rest => searchLoop rest
  | some n :: rest => if snippetOk n.text then some n.text else searchLoop rest

/-- Modelled from the spec (§4.3, the claimed panel exclusion that the code
does not implement): additionally reject any snippet originating from a
flagged panel-type container. -/
def searchLoop_claimed : List (Option SnippetNode) → Option String
  | [] => none
  | none :: rest => searchLoop_claimed rest
  | some n :: rest =>
    if snippetOk n.text && !n.fromPanel then some n.text else searchLoop_claimed rest

/-- The external environment of one `scraper.py` run: answer-page fetches by
URL and Google-results fetches by query text (`search_google` builds the URL
from the URL-escaped question; the composite fetch+parse is the oracle). -/
structure World where
  fetchPage : String → Option Page
  searchFetch : String → Option SearchPage

/-- `search_google` (`scraper.py` lines 102-133): fetch the results page
(empty answer on fetch failure), try the three selectors in order, return the
first non-ad, non-empty snippet; on total selector miss return `""` and log a
200-character preview of the page text (the second component). -/
def search_google (w : World) (q : String) : String × Option String :=
  match w.searchFetch q with
  | none => ("", none)
  | some pg =>
    match searchLoop (selectorNodes pg) with
    | some t => (t, none)
    | none => ("", some (String.mk (pg.fullText.data.take 200)))

/-- Modelled from the spec: `search_google` as claim C8 describes it, with
the panel-container exclusion applied. -/
def search_google_claimed (w : World) (q : String) : String × Option String :=
  match w.searchFetch q with
  | none => ("", none)
  | some pg =>
    match searchLoop_claimed (selectorNodes pg) with
    | some t => (t, none)
    | none => ("", some (String.mk (pg.fullText.data.take 200)))

/-- `extract_answer` (`scraper.py` lines 76-100): if a truthy link is given,
fetch it and run the page rules, returning whatever the first firing rule
produced (even an empty string); only when no rule fires, or the link is
absent or its fetch fails, fall back to `search_google`.  The trace lists the
resolvers that performed external work. -/
def extract_answer (w : World) (link : Option String) (q : String) :
    String × List Resolver :=
  if optTruthy link then
    match w.fetchPage (link.getD "") with
    | some p =>
      match scrape_rules p with
      | some t => (t, [Resolver.pageScrape])
      | none => ((search_google w q).1, [Resolver.pageScrape, Resolver.googleSnippet])
    | none => ((search_google w q).1, [Resolver.pageScrape, Resolver.googleSnippet])
  else ((search_google w q).1, [Resolver.googleSnippet])

/-! ### Question ingestion -/

/-- One element matched by a question selector: its stripped text and the
`href` of its first `<a>` descendant, if any. -/
structure QEl where
  text : String
  href : Option String
deriving DecidableEq, Repr

/-- A fetched source page as seen by `extract_questions`: the elements
matched by the configured selector, and every `<li>` item's text. -/
structure QSoup where
  selected : List QEl
  listItems : List String
deriving Repr

/-- An ingested question: text plus optional absolute link. -/
structure QItem where
  text : String
  link : Option String
deriving DecidableEq, Repr

/-- The filter both branches of `extract_questions` apply:
`if '?' not in text or len(text) < 10: continue`. -/
def qKeep (t : String) : Bool := t.data.contains '?' && decide (10 ≤ t.length)

/-- The selector branch of `extract_questions`: matches passing the filter,
their link resolved by `urljoin` (modelled as an oracle). -/
def selectedQuestions (urljoin : String → String → String) (soup : QSoup)
    (srcUrl : String) : List QItem :=
  soup.selected.filterMap (fun el =>
    if qKeep el.text then some ⟨el.text, el.href.map (urljoin srcUrl)⟩ else none)

/-- The `<li>` fallback branch of `extract_questions`. -/
def fallbackQuestions (soup : QSoup) : List QItem :=
  soup.listItems.filterMap (fun t => if qKeep t then some ⟨t, none⟩ else none)

/-- `extract_questions` (`scraper.py` lines 55-74): collect selector matches
passing the filter; if none survive, fall back to the same filter over all
`<li>` items. -/
def extract_questions (urljoin : String → String → String) (soup : QSoup)
    (srcUrl : String) : List QItem :=
  if (selectedQuestions urljoin soup srcUrl).isEmpty then fallbackQuestions soup
  else selectedQuestions urljoin soup srcUrl

/-! ### The store update loop -/

/-- `get_question_hash` (`scraper.py` lines 52-53): the digest of the
lowercased question text.  The digest function itself (`md5` hexdigest) is an
opaque parameter `hash`; every theorem below holds for an arbitrary digest. -/
def get_question_hash (hash : String → String) (q : String) : String :=
  hash (pyLower q)

/-- A stored row, reduced to the fields the claims speak about. -/
structure DbRow where
  question : String
  answer : String
deriving DecidableEq, Repr

/-- The in-run store state of `update_database`: the known-digest set
`existing_hashes` (as a list, membership being what the code uses), the store
rows, and the questions for which `extract_answer` was invoked. -/
structure DbState where
  hashes : List String
  rows : List DbRow
  resolved : List String
deriving Repr

/-- One iteration of the `update_database` loop (`scraper.py` lines 181-202)
on a candidate `(text, link)` pair: skip when the digest is already known
(the question is neither resolved nor appended); otherwise resolve, attempt
`append_row` (`ok` is the oracle for that attempt), and only on success add
the digest to the known set. -/
def processPair (hash : String → String) (resolve : String → Option String → String)
    (ok : Bool) (st : DbState) (pr : String × Option String) : DbState :=
  if get_question_hash hash pr.1 ∈ st.hashes then st
  else
    let ans := resolve pr.1 pr.2
    if ok then
      { hashes := st.hashes ++ [get_question_hash hash pr.1],
        rows := st.rows ++ [⟨pr.1, ans⟩],
        resolved := st.resolved ++ [pr.1] }
    else { st with resolved := st.resolved ++ [pr.1] }

/-- The `update_database` loop folded over the candidate pairs (the Python
`for` iterates a set, whose order is unspecified; the list argument is an
arbitrary enumeration of it).  `n` indexes the `append_row` oracle. -/
def update_databaseGo (hash : String → String)
    (resolve : String → Option String → String) (appendOk : Nat → Bool) :
    Nat → List (String × Option String) → DbState → DbState
  | _, [], st => st
  | n, pr :: rest, st =>
    update_databaseGo hash resolve appendOk (n + 1) rest
      (processPair hash resolve (appendOk n) st pr)

/-- The digest of a stored row's question. -/
def rowDigest (hash : String → String) (r : DbRow) : String :=
  get_question_hash hash r.question

/-- The store invariant of `update_database`: every stored row's digest is in
the known-digest set, and no two stored rows share a digest. -/
def DbInv (hash : String → String) (st : DbState) : Prop :=
  (∀ r ∈ st.rows, rowDigest hash r ∈ st.hashes) ∧
    (st.rows.map (rowDigest hash)).Nodup

end Scraper

/-! ## Concrete instances used by the theorems below -/

/-- A world whose Google Custom Search API returns a short apologetic
answer; no other resolver is configured. -/
def c2W : AnswerFiller.World :=
  ⟨true, true, false, false, fun _ => none,
    fun _ => some "Sorry, I don\x27t know the answer.", fun _ => none, fun _ => none⟩

/-- The apologetic candidate `c2W`'s Google resolver produces. -/
def c2Ans : String := "Sorry, I don\x27t know the answer."

/-- A fetch oracle whose first attempt hits a network error and whose second
attempt would succeed. -/
def c3Attempt : Nat → FetchOutcome :=
  fun i => if i = 0 then FetchOutcome.netErr else FetchOutcome.ok "pong"

/-- A world with the Google credentials incomplete (`GOOGLE_API_KEY` unset),
no Bing key, and only the OpenAI key configured. -/
def c4W : AnswerFiller.World :=
  ⟨false, true, false, true, fun _ => none, fun _ => none, fun _ => none,
    fun _ => some " A view. "⟩

/-- A world in which every resolver is unavailable: no credentials and every
fetch fails. -/
def c5W : AnswerFiller.World :=
  ⟨false, false, false, false, fun _ => none, fun _ => none, fun _ => none,
    fun _ => none⟩

/-- A page whose `div.content` holds a single text-less paragraph (for
example one containing only an image) while a later `<article>` holds real
text. -/
def c6Page : Page :=
  ⟨none, some [⟨"", ""⟩], some ⟨"Real answer text.", "Real answer text."⟩⟩

/-- A well-formed page whose only match is the generic article rule. -/
def c6WfPage : Page := ⟨none, none, some ⟨"A good answer.", "A good answer."⟩⟩

/-- A results page whose only selector match is a clean-text snippet sitting
inside a flagged panel-type container. -/
def c8Page : Scraper.SearchPage :=
  ⟨some ⟨"Closures capture variables from the enclosing scope", true⟩, none, none,
    "page body text"⟩

/-- A scraper world serving `c8Page` for every search. -/
def c8W : Scraper.World := ⟨fun _ => none, fun _ => some c8Page⟩

/-- A world in which every resolver is unavailable (distinct copy for the
store-writer claim). -/
def c9W : AnswerFiller.World :=
  ⟨false, false, false, false, fun _ => none, fun _ => none, fun _ => none,
    fun _ => none⟩

/-- A single unanswered row. -/
def c9Rows : List AnswerFiller.Row := [⟨"What is sharding?", "", none⟩]

/-- A world whose page scrape fails but whose Google API returns a usable
snippet. -/
def c1W : AnswerFiller.World :=
  ⟨true, true, true, true, fun _ => none, fun _ => some "A useful snippet.",
    fun _ => some "A bing snippet.", fun _ => some "An LLM answer."⟩

/-- A scraper world where every fetch fails. -/
def c1SW : Scraper.World := ⟨fun _ => none, fun _ => none⟩

/-! ## Helper lemmas -/

namespace AnswerFiller

lemma google_search_called (w : World) (q : String) :
    (google_search w q).2 = (w.gKey && w.gCx) := by
  by_cases h : w.gKey && w.gCx <;> simp [google_search, h]

lemma bing_search_called (w : World) (q : String) :
    (bing_search w q).2 = w.bKey := by
  by_cases h : w.bKey <;> simp [bing_search, h]

lemma openai_answer_called (w : World) (q : String) :
    (openai_answer w q).2 = w.oKey := by
  by_cases h : w.oKey <;> simp [openai_answer, h]

/-- With a missing key, a resolver's candidate is falsy. -/
lemma google_search_skip (w : World) (q : String) (h : (w.gKey && w.gCx) = false) :
    google_search w q = (none, false) := by
  simp [google_search, h]

lemma bing_search_skip (w : World) (q : String) (h : w.bKey = false) :
    bing_search w q = (none, false) := by
  simp [bing_search, h]

lemma openai_answer_skip (w : World) (q : String) (h : w.oKey = false) :
    openai_answer w q = ("", false) := by
  simp [openai_answer, h]

/-- The OpenAI stage returns the OpenAI candidate itself (the final
`return ""` coincides with the empty candidate). -/
lemma step4_fst (w : World) (q : String) (t : List Resolver) :
    (step4 w q t).1 = (openai_answer w q).1 := by
  by_cases h : (openai_answer w q).1.isEmpty
  · simp [step4, h, (String.isEmpty_iff _).mp h]
  · simp [step4, h]

lemma step4_snd (w : World) (q : String) (t : List Resolver) :
    (step4 w q t).2 = t ++ (if w.oKey then [Resolver.openAI] else []) := by
  by_cases h : (openai_answer w q).1.isEmpty <;>
    simp [step4, h, openai_answer_called]

/-- Closed form of the trace of invoked resolvers. -/
lemma extract_answer_snd (w : World) (link : Option String) (q : String) :
    (extract_answer w link q).2 =
      (if optTruthy link then [Resolver.pageScrape] else []) ++
      (if optTruthy (scrape_source w link) then [] else
        (if w.gKey && w.gCx then [Resolver.googleAPI] else []) ++
        (if optTruthy (google_search w q).1 then [] else
          (if w.bKey then [Resolver.bingAPI] else []) ++
          (if optTruthy (bing_search w q).1 then [] else
            (if w.oKey then [Resolver.openAI] else [])))) := by
  by_cases hs : optTruthy (scrape_source w link) <;>
    by_cases hg : optTruthy (google_search w q).1 <;>
      by_cases hb : optTruthy (bing_search w q).1 <;>
        simp [extract_answer, step2, step3, step4_snd, hs, hg, hb,
          google_search_called, bing_search_called, List.append_assoc]

lemma optTruthy_some (s : String) : optTruthy (some s) = !s.isEmpty := rfl

lemma optTruthy_none : optTruthy none = false := rfl

/-- The chain's answer is the first truthy candidate in priority order. -/
lemma extract_answer_fst (w : World) (link : Option String) (q : String) :
    (extract_answer w link q).1 = firstTruthy (chainCandidates w link q) := by
  by_cases hs : optTruthy (scrape_source w link) <;>
    by_cases hg : optTruthy (google_search w q).1 <;>
      by_cases hb : optTruthy (bing_search w q).1 <;>
        by_cases ho : (openai_answer w q).1.isEmpty <;>
          simp [extract_answer, step2, step3, step4_fst, firstTruthy, chainCandidates,
            hs, hg, hb, ho, optTruthy_some]
  all_goals simp_all [String.isEmpty_iff]

end AnswerFiller

namespace Scraper

/-- Follows the amended claim's words: the first selector match whose text is
non-empty and free of the exclusion markers, panel membership not checked. -/
def firstUsableSnippet (nodes : List (Option SnippetNode)) : Option String :=
  nodes.findSome? (fun o => o.bind (fun n => if snippetOk n.text then some n.text else none))

lemma searchLoop_eq_firstUsable (nodes : List (Option SnippetNode)) :
    searchLoop nodes = firstUsableSnippet nodes := by
  induction nodes with
  | nil => rfl
  | cons o rest ih =>
    cases o with
    | none => simp [searchLoop, firstUsableSnippet] at ih ⊢; exact ih
    | some n =>
      by_cases h : snippetOk n.text <;>
        (simp [searchLoop, firstUsableSnippet, h] at ih ⊢ <;> exact ih)

/-- A processed pair whose digest is already known leaves the state untouched:
the question is neither resolved nor appended. -/
lemma processPair_skip (hash : String → String)
    (resolve : String → Option String → String) (ok : Bool) (st : DbState)
    (pr : String × Option String) (h : get_question_hash hash pr.1 ∈ st.hashes) :
    processPair hash resolve ok st pr = st := by
  simp [processPair, h]

/-- One loop step appends some list of new rows (empty or a singleton) and
extends the digest set by exactly those rows' digests. -/
lemma processPair_char (hash : String → String)
    (resolve : String → Option String → String) (ok : Bool) (st : DbState)
    (pr : String × Option String) :
    ∃ nr : List DbRow,
      (processPair hash resolve ok st pr).rows = st.rows ++ nr ∧
      (processPair hash resolve ok st pr).hashes =
        st.hashes ++ nr.map (rowDigest hash) := by
  by_cases hmem : get_question_hash hash pr.1 ∈ st.hashes
  · exact ⟨[], by simp [processPair, hmem]⟩
  · by_cases hok : ok
    · exact ⟨[⟨pr.1, resolve pr.1 pr.2⟩], by
        simp [processPair, hmem, hok, rowDigest]⟩
    · exact ⟨[], by simp [processPair, hmem, hok]⟩

/-- One loop step preserves the store invariant. -/
lemma processPair_inv (hash : String → String)
    (resolve : String → Option String → String) (ok : Bool) (st : DbState)
    (pr : String × Option String) (h : DbInv hash st) :
    DbInv hash (processPair hash resolve ok st pr) := by
  obtain ⟨hsub, hnd⟩ := h
  by_cases hmem : get_question_hash hash pr.1 ∈ st.hashes
  · rw [processPair_skip hash resolve ok st pr hmem]
    exact ⟨hsub, hnd⟩
  · by_cases hok : ok
    · have hpp : processPair hash resolve ok st pr =
          { hashes := st.hashes ++ [get_question_hash hash pr.1],
            rows := st.rows ++ [⟨pr.1, resolve pr.1 pr.2⟩],
            resolved := st.resolved ++ [pr.1] } := by
        simp [processPair, hmem, hok]
      rw [hpp]
      refine ⟨?_, ?_⟩
      · intro r hr
        rcases List.mem_append.mp hr with hr | hr
        · exact List.mem_append_left _ (hsub r hr)
        · rcases List.mem_singleton.mp hr with rfl
          apply List.mem_append_right
          simp [rowDigest]
      · rw [List.map_append, List.nodup_append]
        refine ⟨hnd, by simp, ?_⟩
        intro x hx hx1
        simp only [List.map_cons, List.map_nil, List.mem_singleton, rowDigest] at hx1
        rcases List.mem_map.mp hx with ⟨r, hr, hdg⟩
        exact hmem (by rw [← hx1, ← hdg]; exact hsub r hr)
    · have hpp : processPair hash resolve ok st pr =
          { st with resolved := st.resolved ++ [pr.1] } := by
        simp [processPair, hmem, hok]
      rw [hpp]
      exact ⟨hsub, hnd⟩

/-- The whole loop appends some list of new rows and extends the digest set by
exactly those rows' digests: digests are added when rows are appended and are
never removed. -/
lemma update_databaseGo_char (hash : String → String)
    (resolve : String → Option String → String) (appendOk : Nat → Bool)
    (prs : List (String × Option String)) :
    ∀ (n : Nat) (st : DbState),
      ∃ nr : List DbRow,
        (update_databaseGo hash resolve appendOk n prs st).rows = st.rows ++ nr ∧
        (update_databaseGo hash resolve appendOk n prs st).hashes =
          st.hashes ++ nr.map (rowDigest hash) := by
  induction prs with
  | nil => exact fun n st => ⟨[], by simp [update_databaseGo]⟩
  | cons pr rest ih =>
    intro n st
    obtain ⟨d, hd1, hd2⟩ :=
      processPair_char hash resolve (appendOk n) st pr
    obtain ⟨nr, h1, h2⟩ := ih (n + 1) (processPair hash resolve (appendOk n) st pr)
    exact ⟨d ++ nr, by simp [update_databaseGo, h1, hd1],
      by simp [update_databaseGo, h2, hd2]⟩

/-- The whole loop preserves the store invariant. -/
lemma update_databaseGo_inv (hash : String → String)
    (resolve : String → Option String → String) (appendOk : Nat → Bool)
    (prs : List (String × Option String)) :
    ∀ (n : Nat) (st : DbState), DbInv hash st →
      DbInv hash (update_databaseGo hash resolve appendOk n prs st) := by
  induction prs with
  | nil => exact fun n st h => h
  | cons pr rest ih =>
    intro n st h
    exact ih (n + 1) _ (processPair_inv hash resolve (appendOk n) st pr h)

end Scraper

/-! ## Claim theorems -/

/-- C2, counterexample: the resolution chain of `answer-filler.py` returns —
i.e. accepts — a 6-word candidate containing both apology/uncertainty markers,
so no 15-word / marker / trim acceptance gate is applied to candidates. -/
theorem c2_no_acceptance_policy_cex :
    (AnswerFiller.extract_answer c2W none "What is a monad?").1 = c2Ans ∧
    acceptPolicy c2Ans = false ∧ wordCount c2Ans = 6 := by
  refine ⟨by decide, by decide, by decide⟩

/-- C2, amended: the chain applies no acceptance policy at all — it returns
the first truthy (non-`None`, non-empty) candidate in priority order exactly
as produced, and only falsy candidates fall through to the next resolver. -/
theorem c2_first_truthy_accepted (w : AnswerFiller.World) (link : Option String)
    (q : String) :
    (AnswerFiller.extract_answer w link q).1 =
      AnswerFiller.firstTruthy (AnswerFiller.chainCandidates w link q) :=
  AnswerFiller.extract_answer_fst w link q

/-- C3, counterexample: on a transient network error followed by an attempt
that would succeed, `safe_request` returns `None` after exactly one attempt,
whereas the claimed retrying fetcher would succeed on its second attempt. -/
theorem c3_no_retry_cex :
    safe_request c3Attempt = (none, 1) ∧
    spec_fetch c3Attempt = (some "pong", 2) ∧
    safe_request c3Attempt ≠ spec_fetch c3Attempt := by
  refine ⟨by decide, by decide, by decide⟩

/-- C3, amended: `safe_request` performs exactly one attempt for every
outcome class; any failure — transient or not — immediately yields `None`,
with no retry and no backoff. -/
theorem c3_single_attempt (attempt : Nat → FetchOutcome) :
    safe_request attempt =
      ((match attempt 0 with | .ok b => some b | _ => none), 1) := by
  cases h : attempt 0 <;> simp [safe_request, h]

/-- C8, counterexample: `search_google` returns the first selector match with
clean non-empty text even when that node sits inside a flagged panel-type
container, whereas the claimed resolver would exclude it. -/
theorem c8_no_panel_exclusion_cex :
    (Scraper.search_google c8W "q").1
        = "Closures capture variables from the enclosing scope" ∧
    (c8Page.vwiC3b.map Scraper.SnippetNode.fromPanel) = some true ∧
    (Scraper.search_google_claimed c8W "q").1 = "" ∧
    (Scraper.search_google c8W "q").1 ≠ (Scraper.search_google_claimed c8W "q").1 := by
  refine ⟨by decide, by decide, by decide, by decide⟩

/-- C8, amended: `search_google` returns the first selector match (in the
fixed selector order) whose text is non-empty and contains neither `"Ad "`
nor `"Sponsored"` — with no panel-container check — returning empty on fetch
failure or total selector miss, and the diagnostic preview it logs on a
selector miss is bounded by 200 characters. -/
theorem c8_snippet_selection (w : Scraper.World) (q : String) :
    (Scraper.search_google w q).1 =
      (match w.searchFetch q with
       | none => ""
       | some pg => (Scraper.firstUsableSnippet (Scraper.selectorNodes pg)).getD "") ∧
    ((Scraper.search_google w q).2.getD "").length ≤ 200 := by
  constructor
  · cases h : w.searchFetch q with
    | none => simp [Scraper.search_google, h]
    | some pg =>
      show (Scraper.search_google w q).1 =
        (Scraper.firstUsableSnippet (Scraper.selectorNodes pg)).getD ""
      rw [← Scraper.searchLoop_eq_firstUsable]
      cases hl : Scraper.searchLoop (Scraper.selectorNodes pg) <;>
        simp [Scraper.search_google, h, hl]
  · cases h : w.searchFetch q with
    | none => simp [Scraper.search_google, h]
    | some pg =>
      cases hl : Scraper.searchLoop (Scraper.selectorNodes pg) <;>
        simp [Scraper.search_google, h, hl]

/-- C10: every item returned by `extract_questions` — from the configured
selector or from the list-item fallback — has a text containing `'?'` of
length at least 10. -/
theorem c10_question_filter (urljoin : String → String → String)
    (soup : Scraper.QSoup) (srcUrl : String) (it : Scraper.QItem)
    (h : it ∈ Scraper.extract_questions urljoin soup srcUrl) :
    it.text.data.contains '?' = true ∧ 10 ≤ it.text.length := by
  unfold Scraper.extract_questions at h
  split at h
  · rcases List.mem_filterMap.mp h with ⟨t, ht, hf⟩
    split at hf
    next hk =>
      simp only [Option.some.injEq] at hf
      subst hf
      simpa [Scraper.qKeep] using hk
    next => exact absurd hf (by simp)
  · rcases List.mem_filterMap.mp h with ⟨el, hel, hf⟩
    split at hf
    next hk =>
      simp only [Option.some.injEq] at hf
      subst hf
      simpa [Scraper.qKeep] using hk
    next => exact absurd hf (by simp)

/-- C10, witness: a concrete selector-matched question passes the filter. -/
theorem c10_question_filter_witness :
    ("What is a B-tree?".data.contains '?' = true ∧ 10 ≤ "What is a B-tree?".length) :=
  c10_question_filter (fun a b => a ++ b)
    ⟨[⟨"What is a B-tree?", none⟩], []⟩ "https://s"
    ⟨"What is a B-tree?", none⟩ (by decide)

/-- C4: a resolver whose optional credential is absent is skipped — it
returns an empty result without making its external call (and, the embedding
being total, without raising) — and the chain proceeds to the remaining
resolvers: with Google and Bing unconfigured and the page scrape empty, the
chain still reaches OpenAI, invoking exactly the page scrape (when a link is
present) and OpenAI. -/
theorem c4_credential_skip (w : AnswerFiller.World) (link : Option String)
    (q : String) :
    ((w.gKey && w.gCx) = false → AnswerFiller.google_search w q = (none, false)) ∧
    (w.bKey = false → AnswerFiller.bing_search w q = (none, false)) ∧
    (w.oKey = false → AnswerFiller.openai_answer w q = ("", false)) ∧
    (w.gKey = false → w.bKey = false → w.oKey = true →
      optTruthy (AnswerFiller.scrape_source w link) = false →
      AnswerFiller.extract_answer w link q =
        ((AnswerFiller.openai_answer w q).1,
          (if optTruthy link then [Resolver.pageScrape] else [])
            ++ [Resolver.openAI])) := by
  refine ⟨AnswerFiller.google_search_skip w q, AnswerFiller.bing_search_skip w q,
    AnswerFiller.openai_answer_skip w q, ?_⟩
  intro hg hb ho hs
  have hg' : (w.gKey && w.gCx) = false := by simp [hg]
  have e : AnswerFiller.extract_answer w link q =
      AnswerFiller.step4 w q (if optTruthy link then [Resolver.pageScrape] else []) := by
    simp [AnswerFiller.extract_answer, AnswerFiller.step2, AnswerFiller.step3, hs,
      AnswerFiller.google_search_skip w q hg', AnswerFiller.bing_search_skip w q hb,
      AnswerFiller.optTruthy_none]
  rw [e, Prod.ext_iff]
  exact ⟨AnswerFiller.step4_fst w q _, by rw [AnswerFiller.step4_snd w q _, ho]; simp⟩

/-- C4, witness: with only the OpenAI key configured and no link, the chain
skips the other resolvers and returns the OpenAI answer. -/
theorem c4_credential_skip_witness :
    AnswerFiller.extract_answer c4W none "What is REST?"
      = ("A view.", [Resolver.openAI]) := by
  have h := (c4_credential_skip c4W none "What is REST?").2.2.2 rfl rfl rfl (by decide)
  exact h.trans (by decide)

/-- C5: when every resolver comes back empty or fails the chain returns the
empty string rather than raising (the embedding is total); in `fill_answers`
such a question produces no write and processing continues with the next row,
while in `update_database` a fresh question resolving empty is still appended
with a blank answer cell. -/
theorem c5_total_exhaustion (w : AnswerFiller.World) (link : Option String)
    (q : String) :
    (optTruthy (AnswerFiller.scrape_source w link) = false →
      optTruthy (AnswerFiller.google_search w q).1 = false →
      optTruthy (AnswerFiller.bing_search w q).1 = false →
      (AnswerFiller.openai_answer w q).1 = "" →
      (AnswerFiller.extract_answer w link q).1 = "") ∧
    (∀ (i : Nat) (r : AnswerFiller.Row) (rest : List AnswerFiller.Row),
      (pyStrip r.answer).isEmpty = true →
      (AnswerFiller.extract_answer w r.link r.question).1 = "" →
      AnswerFiller.fill_answersGo w i (r :: rest)
        = AnswerFiller.fill_answersGo w (i + 1) rest) ∧
    (∀ (hash : String → String) (resolve : String → Option String → String)
        (st : Scraper.DbState) (pr : String × Option String),
      Scraper.get_question_hash hash pr.1 ∉ st.hashes →
      resolve pr.1 pr.2 = "" →
      (Scraper.processPair hash resolve true st pr).rows
        = st.rows ++ [⟨pr.1, ""⟩]) := by
  refine ⟨?_, ?_, ?_⟩
  · intro h1 h2 h3 h4
    rw [AnswerFiller.extract_answer_fst]
    simp [AnswerFiller.firstTruthy, AnswerFiller.chainCandidates, h1, h2, h3, h4,
      AnswerFiller.optTruthy_some]
  · intro i r rest h1 h2
    simp [AnswerFiller.fill_answersGo, h1, h2, String.isEmpty_iff]
  · intro hash resolve st pr h1 h2
    simp [Scraper.processPair, h1, h2]

/-- C5, witness: with no credentials and every fetch failing, the chain
returns empty and the unanswered row is left without any write. -/
theorem c5_total_exhaustion_witness :
    (AnswerFiller.extract_answer c5W none "Explain DNS.").1 = "" ∧
    AnswerFiller.fill_answersGo c5W 2 [⟨"Explain DNS.", "", none⟩]
      = AnswerFiller.fill_answersGo c5W 3 [] := by
  have h1 := (c5_total_exhaustion c5W none "Explain DNS.").1
    (by decide) (by decide) (by decide) (by decide)
  have h2 := (c5_total_exhaustion c5W none "Explain DNS.").2.1 2
    ⟨"Explain DNS.", "", none⟩ [] (by decide) (by decide)
  exact ⟨h1, h2⟩

/-- C6, counterexample: on a page whose `div.content` has one text-less
paragraph and whose `<article>` carries real text, the scraper-variant page
extractor returns the empty output of its content rule (which fires on
element presence alone) instead of the article text that the first
rule-with-non-empty-trimmed-text contract demands — and the page satisfies
the BeautifulSoup well-formedness guarantee. -/
theorem c6_scraper_first_match_cex :
    pageWf c6Page = true ∧
    Scraper.scrape_rules c6Page = some "" ∧
    firstNonEmptyTrimmed (pageRuleOutputsScraper c6Page) = some "Real answer text." ∧
    Scraper.scrape_rules c6Page ≠ firstNonEmptyTrimmed (pageRuleOutputsScraper c6Page) := by
  refine ⟨by decide, by decide, by decide, by decide⟩

/-- C6, amended: the `answer-filler.py` page extractor (`scrape_source`)
does satisfy the contract — on any well-formed page it returns the output of
the first rule whose extracted text is non-empty after trimming, evaluating
no further rules, and empty (never an error) when no rule yields such text;
the scraper variant's content and article rules instead fire on element
presence alone and may return whitespace-empty output without evaluating
later rules. -/
theorem c6_filler_first_match (p : Page) (h : pageWf p = true) :
    AnswerFiller.scrape_rules p = firstNonEmptyTrimmed (pageRuleOutputsFiller p) := by
  rcases p with ⟨a, c, r⟩
  simp only [pageWf, Bool.and_eq_true] at h
  obtain ⟨⟨ha, hr⟩, hc⟩ := h
  rcases a with _ | el₁ <;> rcases c with _ | ps <;> rcases r with _ | el₃ <;>
    simp_all [optElementWf, elementWf, Bool.and_eq_true, beq_iff_eq,
      AnswerFiller.scrape_rules, AnswerFiller.rule1, AnswerFiller.rule2,
      AnswerFiller.rule3, pageRuleOutputsFiller, firstNonEmptyTrimmed]
  all_goals (split_ifs <;> simp_all)

/-- C6, witness: a well-formed page whose only match is the article rule. -/
theorem c6_filler_first_match_witness :
    pageWf c6WfPage = true ∧
    AnswerFiller.scrape_rules c6WfPage
      = firstNonEmptyTrimmed (pageRuleOutputsFiller c6WfPage) :=
  ⟨by decide, c6_filler_first_match c6WfPage (by decide)⟩

/-- C7: starting from a store satisfying the digest invariant, the
`update_database` loop (for any digest function, any resolution function, any
`append_row` outcomes and any iteration order of the candidate set) only ever
appends rows and extends the known-digest set by exactly the digests of the
rows it appended — the set grows monotonically and a digest is added exactly
when a row is successfully appended; afterwards no two stored rows share a
digest; and a pair whose digest is already known leaves the state untouched —
it is neither resolved nor appended. -/
theorem c7_dedup_digest_invariants (hash : String → String)
    (resolve : String → Option String → String) (appendOk : Nat → Bool)
    (prs : List (String × Option String)) (n : Nat) (st : Scraper.DbState)
    (hinv : Scraper.DbInv hash st) :
    (∃ nr : List Scraper.DbRow,
      (Scraper.update_databaseGo hash resolve appendOk n prs st).rows
        = st.rows ++ nr ∧
      (Scraper.update_databaseGo hash resolve appendOk n prs st).hashes
        = st.hashes ++ nr.map (Scraper.rowDigest hash)) ∧
    ((Scraper.update_databaseGo hash resolve appendOk n prs st).rows.map
        (Scraper.rowDigest hash)).Nodup ∧
    (∀ (ok : Bool) (st' : Scraper.DbState) (pr : String × Option String),
      Scraper.get_question_hash hash pr.1 ∈ st'.hashes →
      Scraper.processPair hash resolve ok st' pr = st') :=
  ⟨Scraper.update_databaseGo_char hash resolve appendOk prs n st,
    (Scraper.update_databaseGo_inv hash resolve appendOk prs n st hinv).2,
    fun ok st' pr h => Scraper.processPair_skip hash resolve ok st' pr h⟩

/-- C7, witness: a concrete run over three candidates, two of which share the
digest of their lowercased text, appends two rows with distinct digests. -/
theorem c7_dedup_digest_invariants_witness :
    ((Scraper.update_databaseGo (fun s => s) (fun _ _ => "") (fun _ => true) 0
        [("Q one?", none), ("q ONE?", some "l"), ("Q two?", none)]
        ⟨[], [], []⟩).rows.map (Scraper.rowDigest (fun s => s))).Nodup :=
  (c7_dedup_digest_invariants (fun s => s) (fun _ _ => "") (fun _ => true)
    [("Q one?", none), ("q ONE?", some "l"), ("Q two?", none)] 0
    ⟨[], [], []⟩ ⟨by simp, by simp⟩).2.1

/-- C9, counterexample: a processed unanswered question whose resolution is
empty receives no write at all — `fill_answers` performs zero writes on a
store holding one unanswered row when every resolver is unavailable, refuting
at-least-one-write-per-processed-question. -/
theorem c9_no_write_on_empty_cex :
    (pyStrip ("" : String)).isEmpty = true ∧
    AnswerFiller.fill_answers c9W c9Rows = [] := by
  refine ⟨by decide, by decide⟩

/-- C9, amended: the store writer never overwrites an already-answered row —
every write it attempts targets a row whose answer cell was empty after
trimming, carrying that row's non-empty resolved answer — and conversely it
attempts exactly one write for each unanswered row whose resolution is
non-empty; an unanswered row whose resolution is empty receives no write. -/
theorem c9_store_writer (w : AnswerFiller.World) (i : Nat)
    (rows : List AnswerFiller.Row) :
    (∀ pr ∈ AnswerFiller.fill_answersGo w i rows,
      ∃ (k : Nat) (r : AnswerFiller.Row), rows[k]? = some r ∧ pr.1 = i + k ∧
        (pyStrip r.answer).isEmpty = true ∧
        pr.2 = (AnswerFiller.extract_answer w r.link r.question).1 ∧
        pr.2.isEmpty = false) ∧
    (∀ (k : Nat) (r : AnswerFiller.Row), rows[k]? = some r →
      (pyStrip r.answer).isEmpty = true →
      ((AnswerFiller.extract_answer w r.link r.question).1).isEmpty = false →
      (i + k, (AnswerFiller.extract_answer w r.link r.question).1)
        ∈ AnswerFiller.fill_answersGo w i rows) := by
  induction rows generalizing i with
  | nil =>
    refine ⟨?_, ?_⟩
    · intro pr hpr
      simp [AnswerFiller.fill_answersGo] at hpr
    · intro k r hk
      simp at hk
  | cons r0 rest ih =>
    refine ⟨?_, ?_⟩
    · intro pr hpr
      by_cases h0 : (pyStrip r0.answer).isEmpty
      · by_cases h1 : ((AnswerFiller.extract_answer w r0.link r0.question).1).isEmpty
        · rw [show AnswerFiller.fill_answersGo w i (r0 :: rest)
              = AnswerFiller.fill_answersGo w (i + 1) rest from by
            simp [AnswerFiller.fill_answersGo, h0, h1]] at hpr
          obtain ⟨k, r, hk, hik, ha, hb, hcc⟩ := (ih (i + 1)).1 pr hpr
          exact ⟨k + 1, r, by simpa using hk, by omega, ha, hb, hcc⟩
        · rw [show AnswerFiller.fill_answersGo w i (r0 :: rest)
              = (i, (AnswerFiller.extract_answer w r0.link r0.question).1)
                  :: AnswerFiller.fill_answersGo w (i + 1) rest from by
            simp [AnswerFiller.fill_answersGo, h0, h1]] at hpr
          rcases List.mem_cons.mp hpr with h | h
          · subst h
            exact ⟨0, r0, by simp, by simp, h0, rfl, by simpa using h1⟩
          · obtain ⟨k, r, hk, hik, ha, hb, hcc⟩ := (ih (i + 1)).1 pr h
            exact ⟨k + 1, r, by simpa using hk, by omega, ha, hb, hcc⟩
      · rw [show AnswerFiller.fill_answersGo w i (r0 :: rest)
            = AnswerFiller.fill_answersGo w (i + 1) rest from by
          simp [AnswerFiller.fill_answersGo, h0]] at hpr
        obtain ⟨k, r, hk, hik, ha, hb, hcc⟩ := (ih (i + 1)).1 pr hpr
        exact ⟨k + 1, r, by simpa using hk, by omega, ha, hb, hcc⟩
    · intro k r hk h2 h3
      cases k with
      | zero =>
        simp only [List.getElem?_cons_zero, Option.some.injEq] at hk
        subst hk
        rw [show AnswerFiller.fill_answersGo w i (r0 :: rest)
            = (i, (AnswerFiller.extract_answer w r0.link r0.question).1)
                :: AnswerFiller.fill_answersGo w (i + 1) rest from by
          simp [AnswerFiller.fill_answersGo, h2, h3]]
        simp
      | succ k' =>
        simp only [List.getElem?_cons_succ] at hk
        have hmem := (ih (i + 1)).2 k' r hk h2 h3
        have hidx : i + (k' + 1) = (i + 1) + k' := by omega
        by_cases h0 : (pyStrip r0.answer).isEmpty
        · by_cases h1 : ((AnswerFiller.extract_answer w r0.link r0.question).1).isEmpty
          · rw [show AnswerFiller.fill_answersGo w i (r0 :: rest)
                = AnswerFiller.fill_answersGo w (i + 1) rest from by
              simp [AnswerFiller.fill_answersGo, h0, h1], hidx]
            exact hmem
          · rw [show AnswerFiller.fill_answersGo w i (r0 :: rest)
                = (i, (AnswerFiller.extract_answer w r0.link r0.question).1)
                    :: AnswerFiller.fill_answersGo w (i + 1) rest from by
              simp [AnswerFiller.fill_answersGo, h0, h1], hidx]
            exact List.mem_cons_of_mem _ hmem
        · rw [show AnswerFiller.fill_answersGo w i (r0 :: rest)
              = AnswerFiller.fill_answersGo w (i + 1) rest from by
            simp [AnswerFiller.fill_answersGo, h0], hidx]
          exact hmem

/-- C9, witness: on one answered and one unanswered row (the latter resolving
to a Google snippet), the single write targets the unanswered row. -/
theorem c9_store_writer_witness :
    (2 + 1, (AnswerFiller.extract_answer c2W none "What is a monad?").1)
      ∈ AnswerFiller.fill_answersGo c2W 2
          [⟨"Answered question?", "done", none⟩, ⟨"What is a monad?", "", none⟩] :=
  (c9_store_writer c2W 2
      [⟨"Answered question?", "done", none⟩, ⟨"What is a monad?", "", none⟩]).2
    1 ⟨"What is a monad?", "", none⟩ (by decide) (by decide) (by decide)

/-- C1: both resolution chains invoke their resolvers in the fixed global
priority order — page scrape (external work only when a truthy source link is
present), then search-engine snippet, then structured search API (Google
Custom Search, then Bing), then generative completion — each chain's trace of
invoked resolvers is an order-preserving selection from that order; once a
resolver's candidate is accepted no later resolver is invoked; and the
generative resolver, when invoked, is strictly last. -/
theorem c1_priority_order (wf : AnswerFiller.World) (ws : Scraper.World)
    (link : Option String) (q : String) :
    ((AnswerFiller.extract_answer wf link q).2.Sublist
      [Resolver.pageScrape, Resolver.googleAPI, Resolver.bingAPI, Resolver.openAI]) ∧
    (Resolver.pageScrape ∈ (AnswerFiller.extract_answer wf link q).2 ↔
      optTruthy link = true) ∧
    (optTruthy (AnswerFiller.scrape_source wf link) = true →
      (AnswerFiller.extract_answer wf link q).2 = [Resolver.pageScrape]) ∧
    (optTruthy (AnswerFiller.google_search wf q).1 = true →
      Resolver.bingAPI ∉ (AnswerFiller.extract_answer wf link q).2 ∧
      Resolver.openAI ∉ (AnswerFiller.extract_answer wf link q).2) ∧
    (optTruthy (AnswerFiller.bing_search wf q).1 = true →
      Resolver.openAI ∉ (AnswerFiller.extract_answer wf link q).2) ∧
    (Resolver.openAI ∈ (AnswerFiller.extract_answer wf link q).2 →
      (AnswerFiller.extract_answer wf link q).2.getLast? = some Resolver.openAI) ∧
    ((Scraper.extract_answer ws link q).2.Sublist
      [Resolver.pageScrape, Resolver.googleSnippet]) ∧
    (Resolver.pageScrape ∈ (Scraper.extract_answer ws link q).2 ↔
      optTruthy link = true) ∧
    (∀ (p : Page) (t : String), optTruthy link = true →
      ws.fetchPage (link.getD "") = some p → Scraper.scrape_rules p = some t →
      (Scraper.extract_answer ws link q).2 = [Resolver.pageScrape]) := by
  have hsnd := AnswerFiller.extract_answer_snd wf link q
  have subOne : ∀ (b : Bool) (x : Resolver),
      (if b then [x] else ([] : List Resolver)).Sublist [x] := by
    intro b x
    cases b
    · exact List.nil_sublist _
    · exact List.Sublist.refl _
  have subTail : ∀ (b : Bool) (l r : List Resolver),
      l.Sublist r → (if b then ([] : List Resolver) else l).Sublist r := by
    intro b l r h
    cases b
    · exact h
    · exact List.nil_sublist _
  refine ⟨?_, ?_, ?_, ?_, ?_, ?_, ?_, ?_, ?_⟩
  · rw [hsnd]
    refine List.Sublist.append (subOne _ _) (subTail _ _ _ ?_)
    refine List.Sublist.append (subOne _ _) (subTail _ _ _ ?_)
    exact List.Sublist.append (subOne _ _) (subTail _ _ _ (subOne _ _))
  · rw [hsnd]
    by_cases hl : optTruthy link
    · simp [hl]
    · simp only [hl, if_false, List.nil_append, Bool.false_eq_true, iff_false]
      split_ifs <;> simp
  · intro hs
    have hl : optTruthy link = true := by
      by_cases hl : optTruthy link
      · exact hl
      · rw [show AnswerFiller.scrape_source wf link = none from by
          simp [AnswerFiller.scrape_source, hl]] at hs
        exact absurd hs (by simp [optTruthy])
    rw [hsnd, if_pos hl, if_pos hs]
    simp
  · intro hg
    rw [hsnd]
    simp only [hg, if_true]
    constructor <;> (split_ifs <;> simp)
  · intro hb
    rw [hsnd]
    simp only [hb, if_true]
    split_ifs <;> simp
  · intro hmem
    rw [hsnd] at hmem ⊢
    split_ifs at hmem ⊢ <;> simp_all
  · unfold Scraper.extract_answer
    by_cases hl : optTruthy link
    · simp only [hl, if_true]
      cases hf : ws.fetchPage (link.getD "") with
      | none =>
        exact List.Sublist.refl _
      | some p =>
        cases hr : Scraper.scrape_rules p with
        | none =>
          simp only [hr]
          exact List.Sublist.refl _
        | some t =>
          simp only [hr]
          exact List.Sublist.cons₂ _ (List.nil_sublist _)
    · simp only [hl, if_false]
      exact List.Sublist.cons _ (List.Sublist.refl _)
  · unfold Scraper.extract_answer
    by_cases hl : optTruthy link
    · simp only [hl, if_true]
      cases hf : ws.fetchPage (link.getD "") with
      | none => simp
      | some p => cases hr : Scraper.scrape_rules p <;> simp [hr]
    · simp [hl]
  · intro p t hl hfp hrt
    simp [Scraper.extract_answer, hl, hfp, hrt]

/-- C1, witness: with the page scrape failing and Google accepted, neither
Bing nor OpenAI is invoked. -/
theorem c1_priority_order_witness :
    Resolver.bingAPI ∉ (AnswerFiller.extract_answer c1W (some "https://a") "q").2 ∧
    Resolver.openAI ∉ (AnswerFiller.extract_answer c1W (some "https://a") "q").2 :=
  (c1_priority_order c1W c1SW (some "https://a") "q").2.2.2.1 (by decide)

end InterviewCoach
